import Mathlib

/-!
Shallow embedding of the hybrid-space recommendation orchestrator
`NaiveHybridSpaceRecommender` from `src/baybe/recommenders/naive.py`, together
with the error taxonomy of `src/baybe/exceptions.py`.

Modelling conventions:
* pandas dataframes become `DataFrame`: an index of labels, a column count and
  a list of rows whose cells are `Option Int` (a `none` cell is a missing
  value / NaN);
* the delegated sub-recommender search routines (`recommend` for the
  degenerate dispatch, `_recommend_discrete`, `_recommend_continuous`) are
  collaborators outside the orchestrator and are passed in as function
  parameters, so every theorem quantifies over their behaviour;
* randomness (`samples_random(1)` and `.sample(1)`) is made explicit through
  an `Env` record supplying the drawn values; the orchestrator additionally
  records its sampling and candidate-retrieval side effects in an `Effect`
  list so that fail-fast properties can be stated;
* Python exceptions become an `Except BaybeError` result.
-/

set_option linter.unusedVariables false

deriving instance DecidableEq for Except

namespace Baybe

/-- Search-space topologies, from `baybe.searchspace.SearchSpaceType`. -/
inductive SearchSpaceType where
  | DISCRETE
  | CONTINUOUS
  | HYBRID
  | EITHER
  deriving Repr, DecidableEq, Inhabited

/-- A dataframe cell value; a `none` cell models a missing value (NaN). -/
abbrev Cell := Option Int

/-- A dataframe row. -/
abbrev Row := List Cell

/-- A (single-row) tensor, as produced by `to_tensor(...)`; the `unsqueeze`
reshaping has no observable content in this embedding. -/
abbrev Tensor := List Cell

/-- A pandas dataframe: a label index, a column count, and one row per label. -/
structure DataFrame where
  index : List Nat
  cols : Nat
  rows : List Row
  deriving Repr, DecidableEq, Inhabited

/-- Structural well-formedness of a dataframe: one row per index label and
every row has exactly `cols` cells. -/
def DataFrame.wf (df : DataFrame) : Bool :=
  df.rows.length == df.index.length && df.rows.all (fun r => r.length == df.cols)

/-- A dataframe has no missing values when every cell is present. -/
def DataFrame.noMissing (df : DataFrame) : Bool :=
  df.rows.all (fun r => r.all Option.isSome)

/-- First-match lookup in an association list of labelled rows. -/
def lookupPairs (l : Nat) : List (Nat × Row) → Option Row
  | [] => none
  | (k, r) :: rest => if k = l then some r else lookupPairs l rest

/-- Look up the (first) row carrying a given index label. -/
def DataFrame.locLookup (df : DataFrame) (label : Nat) : Option Row :=
  lookupPairs label (df.index.zip df.rows)

/-- `df.loc[labels]`: select rows by label, in the order given, failing
(KeyError) when some label is absent. -/
def DataFrame.loc (df : DataFrame) (labels : List Nat) : Option DataFrame :=
  if labels.all (fun l => (df.locLookup l).isSome) then
    some { index := labels, cols := df.cols,
           rows := labels.map (fun l => (df.locLookup l).getD []) }
  else none

/-- Index assignment `df.index = ix`: pandas raises on a length mismatch with
the number of rows, modelled by `none`. -/
def DataFrame.setIndex (df : DataFrame) (ix : List Nat) : Option DataFrame :=
  if ix.length == df.rows.length then some { df with index := ix } else none

/-- `pd.concat([a, b], axis=1)`.  When the two indexes coincide the
concatenation is positional; otherwise pandas aligns by label, filling cells
missing on either side with NaN (`none`). -/
def DataFrame.concatAxis1 (a b : DataFrame) : DataFrame :=
  if a.index = b.index then
    { index := a.index, cols := a.cols + b.cols,
      rows := (a.rows.zip b.rows).map (fun p => p.1 ++ p.2) }
  else
    let labels := a.index ++ b.index.filter (fun l => !(a.index.contains l))
    { index := labels, cols := a.cols + b.cols,
      rows := labels.map (fun l =>
        (match a.locLookup l with
         | some r => r
         | none => List.replicate a.cols none) ++
        (match b.locLookup l with
         | some r => r
         | none => List.replicate b.cols none)) }

/-- Modelled from the spec: the discrete subspace (not under src) is a finite
candidate set carrying an experimental/display representation and a
computational representation, two dataframes over the same label index. -/
structure SubspaceDiscrete where
  exp_rep : DataFrame
  comp_rep : DataFrame
  deriving Repr, DecidableEq, Inhabited

/-- Modelled from the spec: the continuous subspace (not under src) is a
bounded real region; only its dimensionality is observable to the
orchestrator's plumbing. -/
structure SubspaceContinuous where
  dim : Nat
  deriving Repr, DecidableEq, Inhabited

/-- Modelled from the spec: a search space (not under src) is a composite of
the two subspaces carrying a derived `SearchSpaceType` classification. -/
structure SearchSpace where
  type : SearchSpaceType
  discrete : SubspaceDiscrete
  continuous : SubspaceContinuous
  deriving Repr, DecidableEq, Inhabited

/-- Modelled from the spec: `SubspaceDiscrete.get_candidates` is not under
src; per the spec it returns the candidate pool in experimental and
computational representation, and with both policy flags true it returns all
configurations regardless of metadata.  The flag values actually passed are
recorded by the caller as an `Effect`. -/
def SubspaceDiscrete.get_candidates (d : SubspaceDiscrete)
    (allow_repeated_recommendations : Bool)
    (allow_recommending_already_measured : Bool) : DataFrame × DataFrame :=
  (d.exp_rep, d.comp_rep)

/-- The capability class of a pure recommender: `isinstance` checks against
`BayesianRecommender` and `NonPredictiveRecommender` become a tag; `otherPure`
stands for any further `PureRecommender` subclass. -/
inductive RecommenderClass where
  | bayesian
  | nonPredictive
  | otherPure
  deriving Repr, DecidableEq, Inhabited

/-- Acquisition-function objects.  `base n` is a freshly built base
acquisition function identified by an allocation token; the
`PartialAcquisitionFunction acqf pinned_part pin_discrete` constructor mirrors
`PartialAcquisitionFunction(acqf=..., pinned_part=..., pin_discrete=...)` from
`baybe.acquisition`. -/
inductive AcqFn where
  | base : Nat → AcqFn
  | PartialAcquisitionFunction : AcqFn → Tensor → Bool → AcqFn
  deriving Repr, DecidableEq, Inhabited

/-- The observable state of a pure sub-recommender: its capability class, the
two policy flags declared on `PureRecommender`, and its stored
`_acquisition_function` slot. -/
structure PureRecommenderState where
  cls : RecommenderClass
  allow_repeated_recommendations : Bool
  allow_recommending_already_measured : Bool
  acquisition_function : Option AcqFn
  deriving Repr, DecidableEq, Inhabited

/-- Modelled from the spec: `BayesianRecommender.setup_acquisition_function`
is not under src; per the spec it rebuilds the recommender's internal scoring
state against the full space and training data.  The freshly built function is
represented by a `base` token chosen by the caller. -/
def setup_acquisition_function (r : PureRecommenderState)
    (searchspace : SearchSpace) (train_x train_y : Option DataFrame)
    (freshTok : Nat) : PureRecommenderState :=
  { r with acquisition_function := some (AcqFn.base freshTok) }

/-- The error taxonomy: the five conditions of `src/baybe/exceptions.py`,
the Python builtins raised by the orchestrator and by pandas, and an
opaque code for any other delegated failure. -/
inductive BaybeError where
  | NotImplementedError (msg : String)
  | NotEnoughPointsLeftError (msg : String)
  | NoMCAcquisitionFunctionError (msg : String)
  | IncompatibleSearchSpaceError (msg : String)
  | EmptySearchSpaceError (msg : String)
  | NothingToSimulateError (msg : String)
  | KeyError (msg : String)
  | ValueError (msg : String)
  | otherError (code : Nat)
  deriving Repr, DecidableEq, Inhabited

/-- Sampling and candidate-retrieval side effects performed by the
orchestrator itself, in order of occurrence. -/
inductive Effect where
  | samplesRandom (n : Nat)
  | getCandidates (allow_repeated_recommendations
      allow_recommending_already_measured : Bool)
  | sampleDiscreteRows (n : Nat)
  deriving Repr, DecidableEq, Inhabited

/-- The environment supplying the random draws: the single continuous point
returned by `searchspace.continuous.samples_random(1)` and the choice made by
`.sample(1)` on the selected discrete rows (taken modulo their number). -/
structure Env where
  contSample : Tensor
  pick : Nat
  deriving Repr, DecidableEq, Inhabited

/-- Record of the one invocation of the discrete sub-recommender's
`_recommend_discrete`, including its full state at call time. -/
structure DiscCall where
  state : PureRecommenderState
  subspace : SubspaceDiscrete
  candidates_comp : DataFrame
  batch_size : Nat
  deriving Repr, DecidableEq, Inhabited

/-- Record of the one invocation of the continuous sub-recommender's
`_recommend_continuous`, including its full state at call time. -/
structure ContCall where
  state : PureRecommenderState
  subspace : SubspaceContinuous
  batch_size : Nat
  deriving Repr, DecidableEq, Inhabited

/-- Record of the one degenerate delegation to a sub-recommender's public
`recommend`. -/
structure DegenCall where
  state : PureRecommenderState
  searchspace : SearchSpace
  batch_size : Nat
  deriving Repr, DecidableEq, Inhabited

/-- Everything observable about one `recommend` invocation: the returned
value or raised error, the post-call states of the two sub-recommender
objects held by the orchestrator, the orchestrator's own side effects, and
the recorded delegate invocations. -/
structure RecommendOutcome where
  result : Except BaybeError DataFrame
  disc_final : PureRecommenderState
  cont_final : PureRecommenderState
  effects : List Effect
  degenCall : Option DegenCall
  discCall : Option DiscCall
  contCall : Option ContCall
  deriving Repr, DecidableEq, Inhabited

/-- The hybrid-space orchestrator: its own two policy flags (inherited from
`PureRecommender`) and the two delegated sub-recommenders. -/
structure NaiveHybridSpaceRecommender where
  allow_repeated_recommendations : Bool
  allow_recommending_already_measured : Bool
  disc_recommender : PureRecommenderState
  cont_recommender : PureRecommenderState
  deriving Repr, DecidableEq, Inhabited

/-- `NaiveHybridSpaceRecommender.recommend` from
`src/baybe/recommenders/naive.py`, lines 79-179.  The delegated routines
`degenRecommend` (a sub-recommender's public `recommend`),
`recommendDiscrete` (`_recommend_discrete`) and `recommendContinuous`
(`_recommend_continuous`) are collaborator parameters; `env` supplies the
random draws. -/
def NaiveHybridSpaceRecommender.recommend
    (self : NaiveHybridSpaceRecommender)
    (degenRecommend : PureRecommenderState → SearchSpace → Nat →
      Option DataFrame → Option DataFrame → Except BaybeError DataFrame)
    (recommendDiscrete : PureRecommenderState → SubspaceDiscrete →
      DataFrame → Nat → Except BaybeError (List Nat))
    (recommendContinuous : PureRecommenderState → SubspaceContinuous →
      Nat → Except BaybeError DataFrame)
    (env : Env) (searchspace : SearchSpace) (batch_size : Nat)
    (train_x train_y : Option DataFrame) : RecommendOutcome :=
  -- First check whether the disc_recommender is either bayesian or
  -- non-predictive
  let is_bayesian_recommender :=
    self.disc_recommender.cls == RecommenderClass.bayesian
  let is_np_recommender :=
    self.disc_recommender.cls == RecommenderClass.nonPredictive
  if !is_bayesian_recommender && !is_np_recommender then
    { result := Except.error (BaybeError.NotImplementedError
        "The discrete recommender should be either a Bayesian or a NonPredictiveRecommender."),
      disc_final := self.disc_recommender, cont_final := self.cont_recommender,
      effects := [], degenCall := none, discCall := none, contCall := none }
  -- Degenerate dispatch: pure discrete or pure continuous space
  else if searchspace.type == SearchSpaceType.DISCRETE then
    { result := degenRecommend self.disc_recommender searchspace batch_size
        train_x train_y,
      disc_final := self.disc_recommender, cont_final := self.cont_recommender,
      effects := [],
      degenCall := some ⟨self.disc_recommender, searchspace, batch_size⟩,
      discCall := none, contCall := none }
  else if searchspace.type == SearchSpaceType.CONTINUOUS then
    { result := degenRecommend self.cont_recommender searchspace batch_size
        train_x train_y,
      disc_final := self.disc_recommender, cont_final := self.cont_recommender,
      effects := [],
      degenCall := some ⟨self.cont_recommender, searchspace, batch_size⟩,
      discCall := none, contCall := none }
  else
    -- We are in a hybrid setting now: sample a single continuous point
    let cont_part : Tensor := env.contSample
    let effects1 := [Effect.samplesRandom 1]
    -- Get discrete candidates; the metadata flags are ignored (both true)
    let candidates_comp :=
      (searchspace.discrete.get_candidates true true).2
    let effects2 := effects1 ++ [Effect.getCandidates true true]
    -- If the discrete recommender is bayesian, set up its acquisition
    -- function and replace it with the partial adapter pinning cont_part
    let disc_used :=
      if is_bayesian_recommender then
        let d := setup_acquisition_function self.disc_recommender searchspace
          train_x train_y 0
        let disc_acqf_part := AcqFn.PartialAcquisitionFunction
          (d.acquisition_function.getD (AcqFn.base 0)) cont_part false
        { d with acquisition_function := some disc_acqf_part }
      else self.disc_recommender
    let discCallRec : DiscCall :=
      ⟨disc_used, searchspace.discrete, candidates_comp, batch_size⟩
    match recommendDiscrete disc_used searchspace.discrete candidates_comp
        batch_size with
    | Except.error e =>
      { result := Except.error e, disc_final := disc_used,
        cont_final := self.cont_recommender, effects := effects2,
        degenCall := none, discCall := some discCallRec, contCall := none }
    | Except.ok disc_rec_idx =>
      -- disc_part = searchspace.discrete.comp_rep.loc[disc_rec_idx].sample(1)
      match searchspace.discrete.comp_rep.loc disc_rec_idx with
      | none =>
        { result := Except.error (BaybeError.KeyError
            "some labels of disc_rec_idx are not in the computational representation"),
          disc_final := disc_used, cont_final := self.cont_recommender,
          effects := effects2, degenCall := none,
          discCall := some discCallRec, contCall := none }
      | some comp_sel =>
        match comp_sel.rows with
        | [] =>
          { result := Except.error (BaybeError.ValueError
              "cannot take a sample from an empty frame"),
            disc_final := disc_used, cont_final := self.cont_recommender,
            effects := effects2, degenCall := none,
            discCall := some discCallRec, contCall := none }
        | r0 :: _ =>
          let disc_part : Tensor :=
            comp_sel.rows.getD (env.pick % comp_sel.rows.length) r0
          let effects3 := effects2 ++ [Effect.sampleDiscreteRows 1]
          -- Set up a fresh acquisition function for the continuous
          -- recommender and wrap it with the adapter pinning disc_part
          let c := setup_acquisition_function self.cont_recommender
            searchspace train_x train_y 1
          let cont_acqf_part := AcqFn.PartialAcquisitionFunction
            (c.acquisition_function.getD (AcqFn.base 1)) disc_part true
          let cont_used := { c with acquisition_function := some cont_acqf_part }
          let contCallRec : ContCall :=
            ⟨cont_used, searchspace.continuous, batch_size⟩
          match recommendContinuous cont_used searchspace.continuous
              batch_size with
          | Except.error e =>
            { result := Except.error e, disc_final := disc_used,
              cont_final := cont_used, effects := effects3,
              degenCall := none, discCall := some discCallRec,
              contCall := some contCallRec }
          | Except.ok rec_cont =>
            -- Glue the solutions together
            match searchspace.discrete.exp_rep.loc disc_rec_idx with
            | none =>
              { result := Except.error (BaybeError.KeyError
                  "some labels of disc_rec_idx are not in the experimental representation"),
                disc_final := disc_used, cont_final := cont_used,
                effects := effects3, degenCall := none,
                discCall := some discCallRec, contCall := some contCallRec }
            | some rec_disc_exp =>
              match rec_cont.setIndex rec_disc_exp.index with
              | none =>
                { result := Except.error (BaybeError.ValueError
                    "length mismatch on index assignment"),
                  disc_final := disc_used, cont_final := cont_used,
                  effects := effects3, degenCall := none,
                  discCall := some discCallRec, contCall := some contCallRec }
              | some rec_cont2 =>
                { result := Except.ok (rec_disc_exp.concatAxis1 rec_cont2),
                  disc_final := disc_used, cont_final := cont_used,
                  effects := effects3, degenCall := none,
                  discCall := some discCallRec, contCall := some contCallRec }

/-- A heap of recommender objects; references are list positions. -/
abbrev Store := List PureRecommenderState

/-- The orchestrator as attrs sees it during `__attrs_post_init__`: its own
two policy flags and references into the store for the two sub-recommenders. -/
structure NaiveHybridRefs where
  allow_repeated_recommendations : Bool
  allow_recommending_already_measured : Bool
  disc_recommender : Nat
  cont_recommender : Nat
  deriving Repr, DecidableEq, Inhabited

/-- `evolve(r, allow_recommending_already_measured=v)`: a copy of `r` with
that one field replaced. -/
def evolve_allow_recommending_already_measured
    (r : PureRecommenderState) (v : Bool) : PureRecommenderState :=
  { r with allow_recommending_already_measured := v }

/-- `evolve(r, allow_repeated_recommendations=v)`: a copy of `r` with that
one field replaced. -/
def evolve_allow_repeated_recommendations
    (r : PureRecommenderState) (v : Bool) : PureRecommenderState :=
  { r with allow_repeated_recommendations := v }

/-- `NaiveHybridSpaceRecommender.__attrs_post_init__`: compare each of the
orchestrator's two policy flags against the discrete sub-recommender's,
warn (the returned strings name the conflicting field, as the f-string does
via `fields(...)`) and repoint `disc_recommender` at an evolved copy on each
mismatch.  The `allow_recommending_already_measured` flag is checked first,
exactly as in the source. -/
def attrs_post_init (st : Store) (o : NaiveHybridRefs) :
    Store × NaiveHybridRefs × List String :=
  let step1 :=
    let flag := o.allow_recommending_already_measured
    let d := st.getD o.disc_recommender default
    if flag != d.allow_recommending_already_measured then
      (st ++ [evolve_allow_recommending_already_measured d flag],
       { o with disc_recommender := st.length },
       ["allow_recommending_already_measured"])
    else (st, o, ([] : List String))
  let st1 := step1.1
  let o1 := step1.2.1
  let w1 := step1.2.2
  let step2 :=
    let flag := o1.allow_repeated_recommendations
    let d := st1.getD o1.disc_recommender default
    if flag != d.allow_repeated_recommendations then
      (st1 ++ [evolve_allow_repeated_recommendations d flag],
       { o1 with disc_recommender := st1.length },
       ["allow_repeated_recommendations"])
    else (st1, o1, ([] : List String))
  (step2.1, step2.2.1, w1 ++ step2.2.2)

/-- The discrete sub-recommender state in effect during the hybrid cycle's
discrete search: its acquisition function is replaced by the partial adapter
pinning the sampled continuous point exactly when it is Bayesian. -/
def discUsedAfter (self : NaiveHybridSpaceRecommender) (env : Env) :
    PureRecommenderState :=
  if self.disc_recommender.cls == RecommenderClass.bayesian then
    { self.disc_recommender with
        acquisition_function := some (AcqFn.PartialAcquisitionFunction
          (AcqFn.base 0) env.contSample false) }
  else self.disc_recommender

/-- The continuous sub-recommender state in effect during the hybrid cycle's
continuous search: a freshly set-up acquisition function wrapped by the
partial adapter pinning the sampled discrete row. -/
def contUsedAfter (self : NaiveHybridSpaceRecommender) (disc_part : Tensor) :
    PureRecommenderState :=
  { self.cont_recommender with
      acquisition_function := some (AcqFn.PartialAcquisitionFunction
        (AcqFn.base 1) disc_part true) }

/-- The row drawn by `.sample(1)` from a nonempty list of rows, under the
environment's pick. -/
def sampledRow (rows : List Row) (pick : Nat) (dflt : Row) : Row :=
  rows.getD (pick % rows.length) dflt

/-- Shorthand for the degenerate-delegation signature. -/
abbrev DegenFn := PureRecommenderState → SearchSpace → Nat →
  Option DataFrame → Option DataFrame → Except BaybeError DataFrame

/-- Shorthand for the delegated discrete-search signature. -/
abbrev DiscSearchFn := PureRecommenderState → SubspaceDiscrete →
  DataFrame → Nat → Except BaybeError (List Nat)

/-- Shorthand for the delegated continuous-search signature. -/
abbrev ContSearchFn := PureRecommenderState → SubspaceContinuous →
  Nat → Except BaybeError DataFrame

/-- A three-candidate experimental representation with labels 10, 11, 12. -/
def expRep : DataFrame :=
  ⟨[10, 11, 12], 2, [[some 1, some 2], [some 3, some 4], [some 5, some 6]]⟩

/-- The matching computational representation. -/
def compRep : DataFrame :=
  ⟨[10, 11, 12], 2,
   [[some 100, some 200], [some 300, some 400], [some 500, some 600]]⟩

/-- A hybrid search space over the fixtures. -/
def hybridSpace : SearchSpace :=
  ⟨SearchSpaceType.HYBRID, ⟨expRep, compRep⟩, ⟨1⟩⟩

/-- A purely continuous space. -/
def contSpace : SearchSpace :=
  ⟨SearchSpaceType.CONTINUOUS, ⟨expRep, compRep⟩, ⟨1⟩⟩

/-- A purely discrete space. -/
def discSpace : SearchSpace :=
  ⟨SearchSpaceType.DISCRETE, ⟨expRep, compRep⟩, ⟨1⟩⟩

/-- A Bayesian sub-recommender with both flags true and no stored
acquisition function. -/
def bayesRec : PureRecommenderState :=
  ⟨RecommenderClass.bayesian, true, true, none⟩

/-- A non-predictive sub-recommender. -/
def npRec : PureRecommenderState :=
  ⟨RecommenderClass.nonPredictive, true, true, none⟩

/-- A pure recommender of neither supported capability class. -/
def otherRec : PureRecommenderState :=
  ⟨RecommenderClass.otherPure, true, true, none⟩

/-- An orchestrator with a Bayesian discrete sub-recommender. -/
def orchBayes : NaiveHybridSpaceRecommender := ⟨true, true, bayesRec, bayesRec⟩

/-- An orchestrator whose discrete sub-recommender is of an unsupported
capability class. -/
def orchOther : NaiveHybridSpaceRecommender := ⟨true, true, otherRec, bayesRec⟩

/-- A degenerate delegate returning a fixed one-row frame. -/
def okDegen : DegenFn :=
  fun r ss bs tx ty => Except.ok ⟨[0], 1, [[some 99]]⟩

/-- A discrete search delegate selecting candidate labels 12 then 10. -/
def discSel : DiscSearchFn :=
  fun st sub cand bs => Except.ok [12, 10]

/-- A continuous search delegate returning two one-column rows. -/
def contOut : ContSearchFn :=
  fun st sub bs => Except.ok ⟨[0, 1], 1, [[some 7], [some 8]]⟩

/-- An environment drawing a fixed continuous point and picking row 0. -/
def env0 : Env := ⟨[some 0], 0⟩

/-- A fully successful hybrid run on the fixtures with batch size 2. -/
def run2 : RecommendOutcome :=
  orchBayes.recommend okDegen discSel contOut env0 hybridSpace 2 none none

/-- A discrete search delegate that always fails with the
insufficient-candidates condition. -/
def discFail : DiscSearchFn :=
  fun st sub cand bs => Except.error
    (BaybeError.NotEnoughPointsLeftError "not enough points left")

/-- A discrete sub-recommender whose flags disagree with the orchestrator
fixture on both counts. -/
def discWrongFlags : PureRecommenderState :=
  ⟨RecommenderClass.bayesian, false, false, none⟩

/-- A two-object store: the mismatched discrete sub-recommender and a
continuous one. -/
def storeFix : Store := [discWrongFlags, bayesRec]

/-- An orchestrator (reference view) with both flags true, pointing at the
two store objects. -/
def orchRefsFix : NaiveHybridRefs := ⟨true, true, 0, 1⟩

/-- The merged hybrid batch produced by the glue step for selected labels
`idx` and continuous result `rc`: the experimental rows at those labels,
column-concatenated with `rc` reindexed to the same labels. -/
def mergedBatch (searchspace : SearchSpace) (idx : List Nat)
    (rc : DataFrame) : DataFrame :=
  DataFrame.concatAxis1
    ⟨idx, searchspace.discrete.exp_rep.cols,
     idx.map (fun l => (searchspace.discrete.exp_rep.locLookup l).getD [])⟩
    { rc with index := idx }

/-!
Theorems: helper lemmas first, then the claim theorems with their
witnesses and counterexamples.
-/

theorem lookupPairs_isSome {l : Nat} :
    ∀ {ps : List (Nat × Row)}, l ∈ ps.map Prod.fst →
      (lookupPairs l ps).isSome := by
  intro ps
  induction ps with
  | nil => intro h; simp at h
  | cons p rest ih =>
    intro h
    obtain ⟨k, r⟩ := p
    by_cases hk : k = l
    · simp [lookupPairs, hk]
    · simp only [lookupPairs, if_neg hk]
      rcases List.mem_cons.mp h with h1 | h1
      · exact absurd h1.symm hk
      · exact ih h1

theorem lookupPairs_mem {l : Nat} :
    ∀ {ps : List (Nat × Row)} {r : Row}, lookupPairs l ps = some r →
      r ∈ ps.map Prod.snd := by
  intro ps
  induction ps with
  | nil => intro r h; simp [lookupPairs] at h
  | cons p rest ih =>
    intro r h
    obtain ⟨k, v⟩ := p
    by_cases hk : k = l
    · simp only [lookupPairs, if_pos hk, Option.some.injEq] at h
      simp [h]
    · simp only [lookupPairs, if_neg hk] at h
      simpa using Or.inr (ih h)

theorem DataFrame.wf_len {df : DataFrame} (h : df.wf = true) :
    df.rows.length = df.index.length := by
  have := (Bool.and_eq_true _ _).mp h
  simpa using this.1

theorem DataFrame.wf_rowlen {df : DataFrame} (h : df.wf = true) :
    ∀ r ∈ df.rows, r.length = df.cols := by
  have := (Bool.and_eq_true _ _).mp h
  intro r hr
  simpa using List.all_eq_true.mp this.2 r hr

theorem DataFrame.locLookup_isSome {df : DataFrame} {l : Nat}
    (hwf : df.wf = true) (hmem : l ∈ df.index) :
    (df.locLookup l).isSome := by
  apply lookupPairs_isSome
  rw [List.map_fst_zip]
  · exact hmem
  · exact Nat.le_of_eq (df.wf_len hwf).symm

theorem DataFrame.locLookup_mem {df : DataFrame} {l : Nat} {r : Row}
    (h : df.locLookup l = some r) : r ∈ df.rows := by
  have := lookupPairs_mem h
  obtain ⟨p, hp, hpr⟩ := List.mem_map.mp this
  exact hpr ▸ (List.of_mem_zip hp).2

theorem DataFrame.loc_eq_some {df : DataFrame} {labels : List Nat}
    (hwf : df.wf = true) (hsub : ∀ l ∈ labels, l ∈ df.index) :
    df.loc labels = some
      { index := labels, cols := df.cols,
        rows := labels.map (fun l => (df.locLookup l).getD []) } := by
  unfold DataFrame.loc
  rw [if_pos]
  apply List.all_eq_true.mpr
  intro l hl
  exact df.locLookup_isSome hwf (hsub l hl)

theorem DataFrame.loc_rows_mem {df : DataFrame} {labels : List Nat}
    (hwf : df.wf = true) (hsub : ∀ l ∈ labels, l ∈ df.index) :
    ∀ r ∈ labels.map (fun l => (df.locLookup l).getD []), r ∈ df.rows := by
  intro r hr
  obtain ⟨l, hl, hlr⟩ := List.mem_map.mp hr
  have hs := df.locLookup_isSome hwf (hsub l hl)
  obtain ⟨v, hv⟩ := Option.isSome_iff_exists.mp hs
  rw [hv] at hlr
  simp only [Option.getD_some] at hlr
  exact hlr ▸ df.locLookup_mem hv

theorem DataFrame.setIndex_eq_some {df : DataFrame} {ix : List Nat}
    (h : ix.length = df.rows.length) :
    df.setIndex ix = some { df with index := ix } := by
  unfold DataFrame.setIndex
  rw [if_pos]
  simpa using h

/-- Positional branch of `concatAxis1`: when the two indexes coincide the
result is the row-wise append. -/
theorem DataFrame.concatAxis1_same_index {a b : DataFrame}
    (h : a.index = b.index) :
    a.concatAxis1 b =
      { index := a.index, cols := a.cols + b.cols,
        rows := (a.rows.zip b.rows).map (fun p => p.1 ++ p.2) } := by
  unfold DataFrame.concatAxis1
  rw [if_pos h]

/-- Characterization of a fully successful hybrid-path run of `recommend`:
under delegates that succeed and label sets that resolve, the outcome is the
merged frame together with the in-place acquisition-function replacements. -/
theorem recommend_hybrid_ok
    (self : NaiveHybridSpaceRecommender)
    (degenRecommend : PureRecommenderState → SearchSpace → Nat →
      Option DataFrame → Option DataFrame → Except BaybeError DataFrame)
    (recommendDiscrete : PureRecommenderState → SubspaceDiscrete →
      DataFrame → Nat → Except BaybeError (List Nat))
    (recommendContinuous : PureRecommenderState → SubspaceContinuous →
      Nat → Except BaybeError DataFrame)
    (env : Env) (searchspace : SearchSpace) (batch_size : Nat)
    (train_x train_y : Option DataFrame)
    (idx : List Nat) (rc comp_sel exp_sel : DataFrame) (r0 : Row)
    (rest : List Row)
    (htype : searchspace.type = SearchSpaceType.HYBRID)
    (hcls : self.disc_recommender.cls = RecommenderClass.bayesian ∨
            self.disc_recommender.cls = RecommenderClass.nonPredictive)
    (hd : ∀ st, recommendDiscrete st searchspace.discrete
            searchspace.discrete.comp_rep batch_size = Except.ok idx)
    (hc : ∀ st, recommendContinuous st searchspace.continuous batch_size =
            Except.ok rc)
    (hloc : searchspace.discrete.comp_rep.loc idx = some comp_sel)
    (hrows : comp_sel.rows = r0 :: rest)
    (hloce : searchspace.discrete.exp_rep.loc idx = some exp_sel)
    (hlen : exp_sel.index.length = rc.rows.length) :
    self.recommend degenRecommend recommendDiscrete recommendContinuous env
      searchspace batch_size train_x train_y =
      { result := Except.ok
          (exp_sel.concatAxis1 { rc with index := exp_sel.index }),
        disc_final := discUsedAfter self env,
        cont_final := contUsedAfter self
          (sampledRow (r0 :: rest) env.pick r0),
        effects := [Effect.samplesRandom 1, Effect.getCandidates true true,
                    Effect.sampleDiscreteRows 1],
        degenCall := none,
        discCall := some ⟨discUsedAfter self env, searchspace.discrete,
          searchspace.discrete.comp_rep, batch_size⟩,
        contCall := some ⟨contUsedAfter self
          (sampledRow (r0 :: rest) env.pick r0),
          searchspace.continuous, batch_size⟩ } := by
  have hset : rc.setIndex exp_sel.index =
      some { rc with index := exp_sel.index } :=
    DataFrame.setIndex_eq_some hlen
  unfold NaiveHybridSpaceRecommender.recommend
  rcases hcls with h | h <;>
    simp only [h, SubspaceDiscrete.get_candidates, setup_acquisition_function,
      htype, hd, hc, hloc, hloce, hrows, hset, discUsedAfter, contUsedAfter,
      sampledRow, beq_self_eq_true, Bool.not_true, Bool.false_and,
      Bool.and_false, if_false, Option.getD_some, reduceCtorEq] <;>
    simp [hrows]

/-- Characterization of the capability-failure path: with a discrete
sub-recommender that is neither Bayesian nor non-predictive, `recommend`
raises at once, before any side effect or delegation, for every space. -/
theorem recommend_capability_failure
    (self : NaiveHybridSpaceRecommender)
    (degenRecommend : PureRecommenderState → SearchSpace → Nat →
      Option DataFrame → Option DataFrame → Except BaybeError DataFrame)
    (recommendDiscrete : PureRecommenderState → SubspaceDiscrete →
      DataFrame → Nat → Except BaybeError (List Nat))
    (recommendContinuous : PureRecommenderState → SubspaceContinuous →
      Nat → Except BaybeError DataFrame)
    (env : Env) (searchspace : SearchSpace) (batch_size : Nat)
    (train_x train_y : Option DataFrame)
    (hcls : self.disc_recommender.cls = RecommenderClass.otherPure) :
    self.recommend degenRecommend recommendDiscrete recommendContinuous env
      searchspace batch_size train_x train_y =
      { result := Except.error (BaybeError.NotImplementedError
          "The discrete recommender should be either a Bayesian or a NonPredictiveRecommender."),
        disc_final := self.disc_recommender,
        cont_final := self.cont_recommender,
        effects := [], degenCall := none, discCall := none,
        contCall := none } := by
  unfold NaiveHybridSpaceRecommender.recommend
  simp [hcls]

/-- Characterization of the degenerate dispatch on a purely discrete space:
the discrete sub-recommender's public `recommend` is called with the same
arguments and its result is returned unmodified, with no orchestrator side
effects and no state change. -/
theorem recommend_discrete_dispatch
    (self : NaiveHybridSpaceRecommender)
    (degenRecommend : PureRecommenderState → SearchSpace → Nat →
      Option DataFrame → Option DataFrame → Except BaybeError DataFrame)
    (recommendDiscrete : PureRecommenderState → SubspaceDiscrete →
      DataFrame → Nat → Except BaybeError (List Nat))
    (recommendContinuous : PureRecommenderState → SubspaceContinuous →
      Nat → Except BaybeError DataFrame)
    (env : Env) (searchspace : SearchSpace) (batch_size : Nat)
    (train_x train_y : Option DataFrame)
    (htype : searchspace.type = SearchSpaceType.DISCRETE)
    (hcls : self.disc_recommender.cls = RecommenderClass.bayesian ∨
            self.disc_recommender.cls = RecommenderClass.nonPredictive) :
    self.recommend degenRecommend recommendDiscrete recommendContinuous env
      searchspace batch_size train_x train_y =
      { result := degenRecommend self.disc_recommender searchspace batch_size
          train_x train_y,
        disc_final := self.disc_recommender,
        cont_final := self.cont_recommender,
        effects := [],
        degenCall := some ⟨self.disc_recommender, searchspace, batch_size⟩,
        discCall := none, contCall := none } := by
  unfold NaiveHybridSpaceRecommender.recommend
  rcases hcls with h | h <;> simp [h, htype]

/-- Characterization of the degenerate dispatch on a purely continuous
space (reachable only past the capability check on the discrete
sub-recommender): the continuous sub-recommender's public `recommend` is
called with the same arguments and its result returned unmodified. -/
theorem recommend_continuous_dispatch
    (self : NaiveHybridSpaceRecommender)
    (degenRecommend : PureRecommenderState → SearchSpace → Nat →
      Option DataFrame → Option DataFrame → Except BaybeError DataFrame)
    (recommendDiscrete : PureRecommenderState → SubspaceDiscrete →
      DataFrame → Nat → Except BaybeError (List Nat))
    (recommendContinuous : PureRecommenderState → SubspaceContinuous →
      Nat → Except BaybeError DataFrame)
    (env : Env) (searchspace : SearchSpace) (batch_size : Nat)
    (train_x train_y : Option DataFrame)
    (htype : searchspace.type = SearchSpaceType.CONTINUOUS)
    (hcls : self.disc_recommender.cls = RecommenderClass.bayesian ∨
            self.disc_recommender.cls = RecommenderClass.nonPredictive) :
    self.recommend degenRecommend recommendDiscrete recommendContinuous env
      searchspace batch_size train_x train_y =
      { result := degenRecommend self.cont_recommender searchspace batch_size
          train_x train_y,
        disc_final := self.disc_recommender,
        cont_final := self.cont_recommender,
        effects := [],
        degenCall := some ⟨self.cont_recommender, searchspace, batch_size⟩,
        discCall := none, contCall := none } := by
  unfold NaiveHybridSpaceRecommender.recommend
  rcases hcls with h | h <;> simp [h, htype]

/-- Characterization of the hybrid path when the delegated discrete search
fails: the error is returned as is, and the continuous search is never
invoked. -/
theorem recommend_hybrid_discError
    (self : NaiveHybridSpaceRecommender)
    (degenRecommend : PureRecommenderState → SearchSpace → Nat →
      Option DataFrame → Option DataFrame → Except BaybeError DataFrame)
    (recommendDiscrete : PureRecommenderState → SubspaceDiscrete →
      DataFrame → Nat → Except BaybeError (List Nat))
    (recommendContinuous : PureRecommenderState → SubspaceContinuous →
      Nat → Except BaybeError DataFrame)
    (env : Env) (searchspace : SearchSpace) (batch_size : Nat)
    (train_x train_y : Option DataFrame) (e : BaybeError)
    (htype : searchspace.type = SearchSpaceType.HYBRID)
    (hcls : self.disc_recommender.cls = RecommenderClass.bayesian ∨
            self.disc_recommender.cls = RecommenderClass.nonPredictive)
    (hd : ∀ st, recommendDiscrete st searchspace.discrete
            searchspace.discrete.comp_rep batch_size = Except.error e) :
    self.recommend degenRecommend recommendDiscrete recommendContinuous env
      searchspace batch_size train_x train_y =
      { result := Except.error e,
        disc_final := discUsedAfter self env,
        cont_final := self.cont_recommender,
        effects := [Effect.samplesRandom 1, Effect.getCandidates true true],
        degenCall := none,
        discCall := some ⟨discUsedAfter self env, searchspace.discrete,
          searchspace.discrete.comp_rep, batch_size⟩,
        contCall := none } := by
  unfold NaiveHybridSpaceRecommender.recommend
  rcases hcls with h | h <;>
    simp only [h, SubspaceDiscrete.get_candidates, setup_acquisition_function,
      htype, hd, discUsedAfter, beq_self_eq_true, Bool.not_true,
      Bool.false_and, Bool.and_false, if_false, Option.getD_some,
      reduceCtorEq] <;>
    simp

/-- On the hybrid path the orchestrator's own side effects are one prefix of
sampling one continuous point, retrieving the candidate pool with both
policy flags true, and sampling one discrete row — whatever the delegates
do. -/
theorem recommend_hybrid_effects
    (self : NaiveHybridSpaceRecommender)
    (degenRecommend : PureRecommenderState → SearchSpace → Nat →
      Option DataFrame → Option DataFrame → Except BaybeError DataFrame)
    (recommendDiscrete : PureRecommenderState → SubspaceDiscrete →
      DataFrame → Nat → Except BaybeError (List Nat))
    (recommendContinuous : PureRecommenderState → SubspaceContinuous →
      Nat → Except BaybeError DataFrame)
    (env : Env) (searchspace : SearchSpace) (batch_size : Nat)
    (train_x train_y : Option DataFrame)
    (htype : searchspace.type = SearchSpaceType.HYBRID)
    (hcls : self.disc_recommender.cls = RecommenderClass.bayesian ∨
            self.disc_recommender.cls = RecommenderClass.nonPredictive) :
    (self.recommend degenRecommend recommendDiscrete recommendContinuous env
      searchspace batch_size train_x train_y).effects =
        [Effect.samplesRandom 1, Effect.getCandidates true true] ∨
    (self.recommend degenRecommend recommendDiscrete recommendContinuous env
      searchspace batch_size train_x train_y).effects =
        [Effect.samplesRandom 1, Effect.getCandidates true true,
         Effect.sampleDiscreteRows 1] := by
  unfold NaiveHybridSpaceRecommender.recommend
  rcases hcls with h | h <;>
    simp only [h, SubspaceDiscrete.get_candidates, setup_acquisition_function,
      htype, beq_self_eq_true, Bool.not_true, Bool.false_and, Bool.and_false,
      if_false, Option.getD_some, reduceCtorEq] <;>
    (repeat' split) <;> simp_all

/-- C1, counterexample: with a discrete sub-recommender of an unsupported
capability class, `recommend` on a purely CONTINUOUS space raises the
not-implemented condition instead of returning the continuous
sub-recommender's result, so the unconditional degenerate-path equivalence
fails as stated. -/
theorem C1_counterexample :
    (orchOther.recommend okDegen discSel contOut env0 contSpace 1
      none none).result ≠
      okDegen orchOther.cont_recommender contSpace 1 none none := by
  decide

/-- C1 (amended): provided the discrete sub-recommender is Bayesian or
non-predictive, `recommend` on a DISCRETE space returns exactly the discrete
sub-recommender's `recommend` on the same arguments, and on a CONTINUOUS
space exactly the continuous sub-recommender's, unmodified. -/
theorem C1_degenerate_dispatch
    (self : NaiveHybridSpaceRecommender) (degenRecommend : DegenFn)
    (recommendDiscrete : DiscSearchFn) (recommendContinuous : ContSearchFn)
    (env : Env) (searchspace : SearchSpace) (batch_size : Nat)
    (train_x train_y : Option DataFrame)
    (hcls : self.disc_recommender.cls = RecommenderClass.bayesian ∨
            self.disc_recommender.cls = RecommenderClass.nonPredictive) :
    (searchspace.type = SearchSpaceType.DISCRETE →
      (self.recommend degenRecommend recommendDiscrete recommendContinuous
        env searchspace batch_size train_x train_y).result =
      degenRecommend self.disc_recommender searchspace batch_size
        train_x train_y) ∧
    (searchspace.type = SearchSpaceType.CONTINUOUS →
      (self.recommend degenRecommend recommendDiscrete recommendContinuous
        env searchspace batch_size train_x train_y).result =
      degenRecommend self.cont_recommender searchspace batch_size
        train_x train_y) := by
  constructor
  · intro htype
    rw [recommend_discrete_dispatch self degenRecommend recommendDiscrete
      recommendContinuous env searchspace batch_size train_x train_y
      htype hcls]
  · intro htype
    rw [recommend_continuous_dispatch self degenRecommend recommendDiscrete
      recommendContinuous env searchspace batch_size train_x train_y
      htype hcls]

/-- C1 witness: the amended statement evaluated on the concrete fixtures. -/
theorem C1_degenerate_dispatch_witness :
    (orchBayes.recommend okDegen discSel contOut env0 discSpace 1
      none none).result =
      okDegen orchBayes.disc_recommender discSpace 1 none none :=
  (C1_degenerate_dispatch orchBayes okDegen discSel contOut env0 discSpace 1
    none none (Or.inl rfl)).1 rfl

/-- C4: when the discrete sub-recommender belongs to neither the Bayesian
nor the non-predictive capability set, `recommend` on a discrete or hybrid
space raises the not-implemented condition with no prior sampling side
effect: no continuous draw, no candidate retrieval, no delegation of any
kind. -/
theorem C4_capability_fail_fast
    (self : NaiveHybridSpaceRecommender) (degenRecommend : DegenFn)
    (recommendDiscrete : DiscSearchFn) (recommendContinuous : ContSearchFn)
    (env : Env) (searchspace : SearchSpace) (batch_size : Nat)
    (train_x train_y : Option DataFrame)
    (hcls : self.disc_recommender.cls ≠ RecommenderClass.bayesian ∧
            self.disc_recommender.cls ≠ RecommenderClass.nonPredictive)
    (hspace : searchspace.type = SearchSpaceType.DISCRETE ∨
              searchspace.type = SearchSpaceType.HYBRID) :
    (self.recommend degenRecommend recommendDiscrete recommendContinuous env
      searchspace batch_size train_x train_y).result =
      Except.error (BaybeError.NotImplementedError
        "The discrete recommender should be either a Bayesian or a NonPredictiveRecommender.") ∧
    (self.recommend degenRecommend recommendDiscrete recommendContinuous env
      searchspace batch_size train_x train_y).effects = [] ∧
    (self.recommend degenRecommend recommendDiscrete recommendContinuous env
      searchspace batch_size train_x train_y).degenCall = none ∧
    (self.recommend degenRecommend recommendDiscrete recommendContinuous env
      searchspace batch_size train_x train_y).discCall = none ∧
    (self.recommend degenRecommend recommendDiscrete recommendContinuous env
      searchspace batch_size train_x train_y).contCall = none := by
  have hop : self.disc_recommender.cls = RecommenderClass.otherPure := by
    cases h : self.disc_recommender.cls
    · exact absurd h hcls.1
    · exact absurd h hcls.2
    · rfl
  rw [recommend_capability_failure self degenRecommend recommendDiscrete
    recommendContinuous env searchspace batch_size train_x train_y hop]
  exact ⟨rfl, rfl, rfl, rfl, rfl⟩

/-- C4 witness: the fail-fast statement on the concrete fixtures over a
discrete space. -/
theorem C4_capability_fail_fast_witness :
    (orchOther.recommend okDegen discSel contOut env0 discSpace 3
      none none).result =
      Except.error (BaybeError.NotImplementedError
        "The discrete recommender should be either a Bayesian or a NonPredictiveRecommender.") ∧
    (orchOther.recommend okDegen discSel contOut env0 discSpace 3
      none none).effects = [] ∧
    (orchOther.recommend okDegen discSel contOut env0 discSpace 3
      none none).degenCall = none ∧
    (orchOther.recommend okDegen discSel contOut env0 discSpace 3
      none none).discCall = none ∧
    (orchOther.recommend okDegen discSel contOut env0 discSpace 3
      none none).contCall = none :=
  C4_capability_fail_fast orchOther okDegen discSel contOut env0 discSpace 3
    none none (by decide) (Or.inl rfl)

/-- C6: on the hybrid path the candidate pool is retrieved with both policy
flags true — whatever flags the orchestrator or its discrete sub-recommender
carry — and no retrieval with any other flag combination ever occurs. -/
theorem C6_pool_retrieval_flags
    (self : NaiveHybridSpaceRecommender) (degenRecommend : DegenFn)
    (recommendDiscrete : DiscSearchFn) (recommendContinuous : ContSearchFn)
    (env : Env) (searchspace : SearchSpace) (batch_size : Nat)
    (train_x train_y : Option DataFrame)
    (htype : searchspace.type = SearchSpaceType.HYBRID)
    (hcls : self.disc_recommender.cls = RecommenderClass.bayesian ∨
            self.disc_recommender.cls = RecommenderClass.nonPredictive) :
    Effect.getCandidates true true ∈
      (self.recommend degenRecommend recommendDiscrete recommendContinuous
        env searchspace batch_size train_x train_y).effects ∧
    ∀ a b, Effect.getCandidates a b ∈
      (self.recommend degenRecommend recommendDiscrete recommendContinuous
        env searchspace batch_size train_x train_y).effects →
      a = true ∧ b = true := by
  rcases recommend_hybrid_effects self degenRecommend recommendDiscrete
      recommendContinuous env searchspace batch_size train_x train_y
      htype hcls with h | h <;>
    rw [h] <;>
    refine ⟨by simp, ?_⟩ <;>
    intro a b hab <;>
    simp only [List.mem_cons, List.mem_singleton] at hab <;>
    rcases hab with h1 | h1 | h1 <;> first
      | (cases h1; exact ⟨rfl, rfl⟩)
      | (exact absurd h1 (by simp))

/-- C6 witness: the pool-retrieval flags on the concrete hybrid run. -/
theorem C6_pool_retrieval_flags_witness :
    Effect.getCandidates true true ∈ run2.effects ∧
    ∀ a b, Effect.getCandidates a b ∈ run2.effects → a = true ∧ b = true :=
  C6_pool_retrieval_flags orchBayes okDegen discSel contOut env0 hybridSpace
    2 none none rfl (Or.inl rfl)

/-- C8: any error raised by the delegated discrete search — in particular
the insufficient-candidates condition — propagates out of `recommend`
unchanged: same error value, no retry, no recovery, and the continuous
search is never reached. -/
theorem C8_discrete_error_propagation
    (self : NaiveHybridSpaceRecommender) (degenRecommend : DegenFn)
    (recommendDiscrete : DiscSearchFn) (recommendContinuous : ContSearchFn)
    (env : Env) (searchspace : SearchSpace) (batch_size : Nat)
    (train_x train_y : Option DataFrame) (e : BaybeError)
    (htype : searchspace.type = SearchSpaceType.HYBRID)
    (hcls : self.disc_recommender.cls = RecommenderClass.bayesian ∨
            self.disc_recommender.cls = RecommenderClass.nonPredictive)
    (hd : ∀ st, recommendDiscrete st searchspace.discrete
            searchspace.discrete.comp_rep batch_size = Except.error e) :
    (self.recommend degenRecommend recommendDiscrete recommendContinuous env
      searchspace batch_size train_x train_y).result = Except.error e ∧
    (self.recommend degenRecommend recommendDiscrete recommendContinuous env
      searchspace batch_size train_x train_y).contCall = none := by
  rw [recommend_hybrid_discError self degenRecommend recommendDiscrete
    recommendContinuous env searchspace batch_size train_x train_y e
    htype hcls hd]
  exact ⟨rfl, rfl⟩

/-- C8 witness: a concrete insufficient-candidates failure propagates
unchanged. -/
theorem C8_discrete_error_propagation_witness :
    (orchBayes.recommend okDegen discFail contOut env0 hybridSpace 5
      none none).result = Except.error
        (BaybeError.NotEnoughPointsLeftError "not enough points left") ∧
    (orchBayes.recommend okDegen discFail contOut env0 hybridSpace 5
      none none).contCall = none :=
  C8_discrete_error_propagation orchBayes okDegen discFail contOut env0
    hybridSpace 5 none none
    (BaybeError.NotEnoughPointsLeftError "not enough points left")
    rfl (Or.inl rfl) (fun st => rfl)

/-- C9: the capability check runs for every space kind: on a purely
CONTINUOUS space, a discrete sub-recommender of an unsupported class makes
`recommend` raise the not-implemented condition even though the discrete
sub-recommender would never be used on that path, and no delegation
occurs. -/
theorem C9_capability_check_on_continuous
    (self : NaiveHybridSpaceRecommender) (degenRecommend : DegenFn)
    (recommendDiscrete : DiscSearchFn) (recommendContinuous : ContSearchFn)
    (env : Env) (searchspace : SearchSpace) (batch_size : Nat)
    (train_x train_y : Option DataFrame)
    (hcls : self.disc_recommender.cls ≠ RecommenderClass.bayesian ∧
            self.disc_recommender.cls ≠ RecommenderClass.nonPredictive)
    (htype : searchspace.type = SearchSpaceType.CONTINUOUS) :
    (self.recommend degenRecommend recommendDiscrete recommendContinuous env
      searchspace batch_size train_x train_y).result =
      Except.error (BaybeError.NotImplementedError
        "The discrete recommender should be either a Bayesian or a NonPredictiveRecommender.") ∧
    (self.recommend degenRecommend recommendDiscrete recommendContinuous env
      searchspace batch_size train_x train_y).degenCall = none ∧
    (self.recommend degenRecommend recommendDiscrete recommendContinuous env
      searchspace batch_size train_x train_y).effects = [] := by
  have hop : self.disc_recommender.cls = RecommenderClass.otherPure := by
    cases h : self.disc_recommender.cls
    · exact absurd h hcls.1
    · exact absurd h hcls.2
    · rfl
  rw [recommend_capability_failure self degenRecommend recommendDiscrete
    recommendContinuous env searchspace batch_size train_x train_y hop]
  exact ⟨rfl, rfl, rfl⟩

/-- C9 witness: the continuous-space raise on the concrete fixtures. -/
theorem C9_capability_check_on_continuous_witness :
    (orchOther.recommend okDegen discSel contOut env0 contSpace 1
      none none).result =
      Except.error (BaybeError.NotImplementedError
        "The discrete recommender should be either a Bayesian or a NonPredictiveRecommender.") ∧
    (orchOther.recommend okDegen discSel contOut env0 contSpace 1
      none none).degenCall = none ∧
    (orchOther.recommend okDegen discSel contOut env0 contSpace 1
      none none).effects = [] :=
  C9_capability_check_on_continuous orchOther okDegen discSel contOut env0
    contSpace 1 none none (by decide) rfl

theorem getD_append_left {l1 l2 : Store} {i : Nat} (h : i < l1.length)
    (d : PureRecommenderState) : (l1 ++ l2).getD i d = l1.getD i d := by
  simp [List.getD_eq_getElem?_getD, List.getElem?_append_left h]

theorem getD_concat_self (l : Store) (x d : PureRecommenderState) :
    (l ++ [x]).getD l.length d = x := by
  simp [List.getD_eq_getElem?_getD, List.getElem?_append_right (Nat.le_refl _)]

/-- Full case characterization of the guard: the two flag checks happen in
source order and each mismatch allocates one evolved copy and repoints the
reference. -/
theorem attrs_post_init_eq (st : Store) (o : NaiveHybridRefs)
    (hdisc : o.disc_recommender < st.length) :
    attrs_post_init st o =
      (if o.allow_recommending_already_measured !=
          (st.getD o.disc_recommender default).allow_recommending_already_measured
       then
        if o.allow_repeated_recommendations !=
            (st.getD o.disc_recommender default).allow_repeated_recommendations
        then
          (st ++ [evolve_allow_recommending_already_measured
              (st.getD o.disc_recommender default)
              o.allow_recommending_already_measured,
            evolve_allow_repeated_recommendations
              (evolve_allow_recommending_already_measured
                (st.getD o.disc_recommender default)
                o.allow_recommending_already_measured)
              o.allow_repeated_recommendations],
           { o with disc_recommender := st.length + 1 },
           ["allow_recommending_already_measured",
            "allow_repeated_recommendations"])
        else
          (st ++ [evolve_allow_recommending_already_measured
              (st.getD o.disc_recommender default)
              o.allow_recommending_already_measured],
           { o with disc_recommender := st.length },
           ["allow_recommending_already_measured"])
       else
        if o.allow_repeated_recommendations !=
            (st.getD o.disc_recommender default).allow_repeated_recommendations
        then
          (st ++ [evolve_allow_repeated_recommendations
              (st.getD o.disc_recommender default)
              o.allow_repeated_recommendations],
           { o with disc_recommender := st.length },
           ["allow_repeated_recommendations"])
        else (st, o, ([] : List String))) := by
  unfold attrs_post_init
  by_cases h1 : o.allow_recommending_already_measured =
      (st.getD o.disc_recommender default).allow_recommending_already_measured
  all_goals by_cases h2 : o.allow_repeated_recommendations =
      (st.getD o.disc_recommender default).allow_repeated_recommendations
  all_goals simp only [List.getD_eq_getElem?_getD] at h1 h2
  · simp [h1, h2]
  · simp [h1, h2, evolve_allow_repeated_recommendations]
  · simp [h1, h2, getD_concat_self,
      evolve_allow_recommending_already_measured,
      evolve_allow_repeated_recommendations]
  · simp [h1, h2, getD_concat_self,
      evolve_allow_recommending_already_measured,
      evolve_allow_repeated_recommendations, List.append_assoc]

theorem getD_concat_two (l : Store) (x y d : PureRecommenderState) :
    (l ++ [x, y]).getD (l.length + 1) d = y := by
  have h : l ++ [x, y] = (l ++ [x]) ++ [y] := by simp
  have hl : (l ++ [x]).length = l.length + 1 := by simp
  rw [h, ← hl, getD_concat_self]

theorem getElem?_concat_self (l : Store) (x d : PureRecommenderState) :
    (l ++ [x])[l.length]?.getD d = x := by
  have := getD_concat_self l x d
  rwa [List.getD_eq_getElem?_getD] at this

theorem getElem?_concat_two (l : Store) (x y d : PureRecommenderState) :
    (l ++ [x, y])[l.length + 1]?.getD d = y := by
  have := getD_concat_two l x y d
  simpa [List.getD_eq_getElem?_getD] using this

theorem getElem_concat_self (l : Store) (x : PureRecommenderState)
    (h : l.length < (l ++ [x]).length) : (l ++ [x])[l.length] = x := by
  have := getElem?_concat_self l x x
  rwa [List.getElem?_eq_getElem h, Option.getD_some] at this

theorem getElem_concat_two (l : Store) (x y : PureRecommenderState)
    (h : l.length + 1 < (l ++ [x, y]).length) :
    (l ++ [x, y])[l.length + 1] = y := by
  have := getElem?_concat_two l x y y
  rwa [List.getElem?_eq_getElem h, Option.getD_some] at this

/-- C5: at construction, each of the two policy flags that disagrees with
the discrete sub-recommender's produces one warning naming that flag (in
source order); afterwards the discrete sub-recommender held by the
orchestrator carries the orchestrator's flag values with its other fields
untouched, the orchestrator's own flags are unchanged, the continuous
sub-recommender is neither checked nor changed, and running the guard again
changes nothing and warns nothing. -/
theorem C5_flag_synchronization
    (st : Store) (o : NaiveHybridRefs)
    (hdisc : o.disc_recommender < st.length)
    (hcont : o.cont_recommender < st.length) :
    ((attrs_post_init st o).1.getD (attrs_post_init st o).2.1.disc_recommender
        default).allow_recommending_already_measured =
      o.allow_recommending_already_measured ∧
    ((attrs_post_init st o).1.getD (attrs_post_init st o).2.1.disc_recommender
        default).allow_repeated_recommendations =
      o.allow_repeated_recommendations ∧
    ((attrs_post_init st o).1.getD (attrs_post_init st o).2.1.disc_recommender
        default).cls = (st.getD o.disc_recommender default).cls ∧
    ((attrs_post_init st o).1.getD (attrs_post_init st o).2.1.disc_recommender
        default).acquisition_function =
      (st.getD o.disc_recommender default).acquisition_function ∧
    (attrs_post_init st o).2.1.allow_recommending_already_measured =
      o.allow_recommending_already_measured ∧
    (attrs_post_init st o).2.1.allow_repeated_recommendations =
      o.allow_repeated_recommendations ∧
    (attrs_post_init st o).2.2 =
      (if o.allow_recommending_already_measured !=
          (st.getD o.disc_recommender default).allow_recommending_already_measured
       then ["allow_recommending_already_measured"] else []) ++
      (if o.allow_repeated_recommendations !=
          (st.getD o.disc_recommender default).allow_repeated_recommendations
       then ["allow_repeated_recommendations"] else []) ∧
    (attrs_post_init st o).2.1.cont_recommender = o.cont_recommender ∧
    (attrs_post_init st o).1.getD (attrs_post_init st o).2.1.cont_recommender
        default = st.getD o.cont_recommender default ∧
    attrs_post_init (attrs_post_init st o).1 (attrs_post_init st o).2.1 =
      ((attrs_post_init st o).1, (attrs_post_init st o).2.1, []) := by
  rw [attrs_post_init_eq st o hdisc]
  by_cases h1 : o.allow_recommending_already_measured =
      (st.getD o.disc_recommender default).allow_recommending_already_measured
  all_goals by_cases h2 : o.allow_repeated_recommendations =
      (st.getD o.disc_recommender default).allow_repeated_recommendations
  all_goals simp only [List.getD_eq_getElem?_getD] at h1 h2
  · simp [h1, h2, List.getElem?_append_left hcont]
    rw [attrs_post_init_eq st o hdisc]
    simp [h1, h2]
  · simp [h1, h2, getElem?_concat_self, getElem_concat_self,
      List.getElem?_append_left hcont,
      evolve_allow_repeated_recommendations]
    rw [attrs_post_init_eq _ _ (by
      simp only [List.length_append, List.length_cons, List.length_nil]
      omega)]
    simp [h1, h2, getElem?_concat_self, getElem_concat_self,
      evolve_allow_repeated_recommendations]
  · simp [h1, h2, getElem?_concat_self, getElem_concat_self,
      List.getElem?_append_left hcont,
      evolve_allow_recommending_already_measured]
    rw [attrs_post_init_eq _ _ (by
      simp only [List.length_append, List.length_cons, List.length_nil]
      omega)]
    simp [h1, h2, getElem?_concat_self, getElem_concat_self,
      evolve_allow_recommending_already_measured]
  · simp [h1, h2, getElem?_concat_two, getElem_concat_two,
      List.getElem?_append_left hcont,
      evolve_allow_recommending_already_measured,
      evolve_allow_repeated_recommendations]
    rw [attrs_post_init_eq _ _ (by
      simp only [List.length_append, List.length_cons, List.length_nil]
      omega)]
    simp [h1, h2, getElem?_concat_two, getElem_concat_two,
      evolve_allow_recommending_already_measured,
      evolve_allow_repeated_recommendations]

/-- C5 witness: the guard statement on the concrete mismatched fixtures. -/
theorem C5_flag_synchronization_witness :
    ((attrs_post_init storeFix orchRefsFix).1.getD
        (attrs_post_init storeFix orchRefsFix).2.1.disc_recommender
        default).allow_recommending_already_measured =
      orchRefsFix.allow_recommending_already_measured :=
  (C5_flag_synchronization storeFix orchRefsFix (by decide) (by decide)).1

/-- C10: the guard never mutates the discrete sub-recommender object
supplied at construction: after the guard, the store entry at the original
reference still holds the original object (the caller's instance keeps its
original flag values), and on any flag mismatch the orchestrator's
`disc_recommender` field has been repointed to a freshly allocated evolved
copy instead. -/
theorem C10_evolve_copies_not_mutates
    (st : Store) (o : NaiveHybridRefs)
    (hdisc : o.disc_recommender < st.length) :
    (attrs_post_init st o).1.getD o.disc_recommender default =
      st.getD o.disc_recommender default ∧
    ((o.allow_recommending_already_measured ≠
        (st.getD o.disc_recommender default).allow_recommending_already_measured ∨
      o.allow_repeated_recommendations ≠
        (st.getD o.disc_recommender default).allow_repeated_recommendations) →
      (attrs_post_init st o).2.1.disc_recommender ≠ o.disc_recommender) := by
  rw [attrs_post_init_eq st o hdisc]
  by_cases h1 : o.allow_recommending_already_measured =
      (st.getD o.disc_recommender default).allow_recommending_already_measured
  all_goals by_cases h2 : o.allow_repeated_recommendations =
      (st.getD o.disc_recommender default).allow_repeated_recommendations
  all_goals simp only [List.getD_eq_getElem?_getD] at h1 h2
  all_goals simp [h1, h2, List.getElem?_append_left hdisc] <;> omega

/-- C10 witness: on the mismatched fixtures the original store entry is
untouched and the reference has moved. -/
theorem C10_evolve_copies_not_mutates_witness :
    (attrs_post_init storeFix orchRefsFix).1.getD
        orchRefsFix.disc_recommender default =
      storeFix.getD orchRefsFix.disc_recommender default ∧
    (attrs_post_init storeFix orchRefsFix).2.1.disc_recommender ≠
      orchRefsFix.disc_recommender :=
  ⟨(C10_evolve_copies_not_mutates storeFix orchRefsFix (by decide)).1,
   (C10_evolve_copies_not_mutates storeFix orchRefsFix (by decide)).2
     (Or.inl (by decide))⟩

theorem DataFrame.noMissing_iff {df : DataFrame} :
    df.noMissing = true ↔ ∀ r ∈ df.rows, ∀ c ∈ r, c.isSome = true := by
  unfold DataFrame.noMissing
  simp [List.all_eq_true]

theorem sampledRow_mem (r0 : Row) (rest : List Row) (pick : Nat) :
    sampledRow (r0 :: rest) pick r0 ∈ r0 :: rest := by
  unfold sampledRow
  have hlt : pick % (r0 :: rest).length < (r0 :: rest).length :=
    Nat.mod_lt _ (by simp)
  rw [List.getD_eq_getElem?_getD, List.getElem?_eq_getElem hlt]
  simp [List.getElem_mem]

/-- C2, counterexample: on a concrete successful hybrid run with batch
size 2 the merged batch is exactly the documented concatenation, but its
index is the pair of selected discrete labels (12 then 10), not
0..batch_size-1, refuting the claim's "indexed 0..batch_size-1". -/
theorem C2_counterexample :
    run2.result = Except.ok (mergedBatch hybridSpace [12, 10]
      ⟨[0, 1], 1, [[some 7], [some 8]]⟩) ∧
    (mergedBatch hybridSpace [12, 10]
      ⟨[0, 1], 1, [[some 7], [some 8]]⟩).index ≠ [0, 1] := by
  decide

/-- C2 (amended): for every hybrid space and batch_size ≥ 1 for which both
delegated searches succeed on well-formed representations, the returned
batch is the column-wise concatenation of the selected discrete rows in
experimental representation with the continuous rows reindexed to match; it
has exactly batch_size rows, exactly (discrete-dim + continuous-dim)
columns, no missing values, and is indexed by the selected discrete row
labels (not 0..batch_size-1). -/
theorem C2_hybrid_batch_shape
    (self : NaiveHybridSpaceRecommender) (degenRecommend : DegenFn)
    (recommendDiscrete : DiscSearchFn) (recommendContinuous : ContSearchFn)
    (env : Env) (searchspace : SearchSpace) (batch_size : Nat)
    (train_x train_y : Option DataFrame)
    (idx : List Nat) (rc : DataFrame)
    (htype : searchspace.type = SearchSpaceType.HYBRID)
    (hcls : self.disc_recommender.cls = RecommenderClass.bayesian ∨
            self.disc_recommender.cls = RecommenderClass.nonPredictive)
    (hd : ∀ st, recommendDiscrete st searchspace.discrete
            searchspace.discrete.comp_rep batch_size = Except.ok idx)
    (hc : ∀ st, recommendContinuous st searchspace.continuous batch_size =
            Except.ok rc)
    (hbatch : idx.length = batch_size)
    (hbs : 1 ≤ batch_size)
    (hwfe : searchspace.discrete.exp_rep.wf = true)
    (hwfc : searchspace.discrete.comp_rep.wf = true)
    (hsube : ∀ l ∈ idx, l ∈ searchspace.discrete.exp_rep.index)
    (hsubc : ∀ l ∈ idx, l ∈ searchspace.discrete.comp_rep.index)
    (hrcwf : rc.wf = true)
    (hrclen : rc.rows.length = batch_size)
    (hrccols : rc.cols = searchspace.continuous.dim)
    (hnme : searchspace.discrete.exp_rep.noMissing = true)
    (hnmrc : rc.noMissing = true) :
    (self.recommend degenRecommend recommendDiscrete recommendContinuous env
      searchspace batch_size train_x train_y).result =
      Except.ok (mergedBatch searchspace idx rc) ∧
    (mergedBatch searchspace idx rc).index = idx ∧
    (mergedBatch searchspace idx rc).rows.length = batch_size ∧
    (mergedBatch searchspace idx rc).cols =
      searchspace.discrete.exp_rep.cols + searchspace.continuous.dim ∧
    (∀ r ∈ (mergedBatch searchspace idx rc).rows,
      r.length = (mergedBatch searchspace idx rc).cols) ∧
    (mergedBatch searchspace idx rc).noMissing = true := by
  have hloce := DataFrame.loc_eq_some hwfe hsube
  have hlocc := DataFrame.loc_eq_some hwfc hsubc
  have hcompLen : (idx.map (fun l =>
      (searchspace.discrete.comp_rep.locLookup l).getD [])).length =
      batch_size := by simp [hbatch]
  have hne : (idx.map (fun l =>
      (searchspace.discrete.comp_rep.locLookup l).getD [])) ≠ [] := by
    intro h
    rw [h] at hcompLen
    simp at hcompLen
    omega
  obtain ⟨r0, rest, hr⟩ := List.exists_cons_of_ne_nil hne
  have hlenE : idx.length = rc.rows.length := by omega
  rw [recommend_hybrid_ok self degenRecommend recommendDiscrete
    recommendContinuous env searchspace batch_size train_x train_y idx rc
    _ _ r0 rest htype hcls hd hc hlocc hr hloce hlenE]
  have hsame : (⟨idx, searchspace.discrete.exp_rep.cols,
      idx.map (fun l =>
        (searchspace.discrete.exp_rep.locLookup l).getD [])⟩ :
      DataFrame).index = ({ rc with index := idx } : DataFrame).index := rfl
  have hmerge : mergedBatch searchspace idx rc =
      { index := idx,
        cols := searchspace.discrete.exp_rep.cols + rc.cols,
        rows := ((idx.map (fun l =>
            (searchspace.discrete.exp_rep.locLookup l).getD [])).zip
          rc.rows).map (fun p => p.1 ++ p.2) } := by
    unfold mergedBatch
    rw [DataFrame.concatAxis1_same_index hsame]
  refine ⟨rfl, ?_, ?_, ?_, ?_, ?_⟩
  · rw [hmerge]
  · rw [hmerge]
    simp [hbatch, hrclen]
  · rw [hmerge, hrccols]
  · rw [hmerge]
    intro r hrm
    obtain ⟨p, hp, hpr⟩ := List.mem_map.mp hrm
    obtain ⟨a, b⟩ := p
    have hab := List.of_mem_zip hp
    have ha : a ∈ searchspace.discrete.exp_rep.rows :=
      DataFrame.loc_rows_mem hwfe hsube a hab.1
    have hla : a.length = searchspace.discrete.exp_rep.cols :=
      DataFrame.wf_rowlen hwfe a ha
    have hlb : b.length = rc.cols :=
      DataFrame.wf_rowlen hrcwf b hab.2
    simp only [← hpr, List.length_append, hla, hlb]
  · rw [hmerge, DataFrame.noMissing_iff]
    intro r hrm c hcm
    obtain ⟨p, hp, hpr⟩ := List.mem_map.mp hrm
    obtain ⟨a, b⟩ := p
    have hab := List.of_mem_zip hp
    have ha : a ∈ searchspace.discrete.exp_rep.rows :=
      DataFrame.loc_rows_mem hwfe hsube a hab.1
    rw [← hpr] at hcm
    rcases List.mem_append.mp hcm with hca | hcb
    · exact (DataFrame.noMissing_iff.mp hnme) a ha c hca
    · exact (DataFrame.noMissing_iff.mp hnmrc) b hab.2 c hcb

/-- C2 witness: the amended statement on the concrete fixtures, batch
size 2, selected labels 12 and 10. -/
theorem C2_hybrid_batch_shape_witness :
    run2.result = Except.ok (mergedBatch hybridSpace [12, 10]
      ⟨[0, 1], 1, [[some 7], [some 8]]⟩) ∧
    (mergedBatch hybridSpace [12, 10]
      ⟨[0, 1], 1, [[some 7], [some 8]]⟩).index = [12, 10] ∧
    (mergedBatch hybridSpace [12, 10]
      ⟨[0, 1], 1, [[some 7], [some 8]]⟩).rows.length = 2 ∧
    (mergedBatch hybridSpace [12, 10]
      ⟨[0, 1], 1, [[some 7], [some 8]]⟩).noMissing = true := by
  have h := C2_hybrid_batch_shape orchBayes okDegen discSel contOut env0
    hybridSpace 2 none none [12, 10] ⟨[0, 1], 1, [[some 7], [some 8]]⟩
    rfl (Or.inl rfl) (fun st => rfl) (fun st => rfl) (by decide) (by decide)
    (by decide) (by decide) (by decide) (by decide) (by decide) (by decide)
    (by decide) (by decide) (by decide)
  exact ⟨h.1, h.2.1, h.2.2.1, h.2.2.2.2.2⟩

/-- C3: in the hybrid cycle the discrete sub-recommender's acquisition
function is replaced by a partial adapter pinning the single sampled
continuous point with pin_discrete = false exactly when that recommender is
Bayesian (a non-predictive one is invoked unchanged); the continuous
sub-recommender's acquisition function is always refreshed (a fresh base,
whatever was stored before) and wrapped with an adapter pinning one row
drawn from the selected discrete rows with pin_discrete = true; each batched
delegate call sees a single adapter with a single pinned row, so the pin is
shared across the whole batch. -/
theorem C3_partial_adapters
    (self : NaiveHybridSpaceRecommender) (degenRecommend : DegenFn)
    (recommendDiscrete : DiscSearchFn) (recommendContinuous : ContSearchFn)
    (env : Env) (searchspace : SearchSpace) (batch_size : Nat)
    (train_x train_y : Option DataFrame)
    (idx : List Nat) (rc comp_sel : DataFrame) (r0 : Row) (rest : List Row)
    (htype : searchspace.type = SearchSpaceType.HYBRID)
    (hcls : self.disc_recommender.cls = RecommenderClass.bayesian ∨
            self.disc_recommender.cls = RecommenderClass.nonPredictive)
    (hd : ∀ st, recommendDiscrete st searchspace.discrete
            searchspace.discrete.comp_rep batch_size = Except.ok idx)
    (hc : ∀ st, recommendContinuous st searchspace.continuous batch_size =
            Except.ok rc)
    (hloc : searchspace.discrete.comp_rep.loc idx = some comp_sel)
    (hrows : comp_sel.rows = r0 :: rest)
    (hloce : searchspace.discrete.exp_rep.loc idx =
      some { index := idx, cols := searchspace.discrete.exp_rep.cols,
             rows := idx.map (fun l =>
               (searchspace.discrete.exp_rep.locLookup l).getD []) })
    (hlen : idx.length = rc.rows.length) :
    (self.disc_recommender.cls = RecommenderClass.bayesian →
      (self.recommend degenRecommend recommendDiscrete recommendContinuous
        env searchspace batch_size train_x train_y).discCall =
      some ⟨{ self.disc_recommender with
          acquisition_function := some (AcqFn.PartialAcquisitionFunction
            (AcqFn.base 0) env.contSample false) },
        searchspace.discrete, searchspace.discrete.comp_rep, batch_size⟩) ∧
    (self.disc_recommender.cls = RecommenderClass.nonPredictive →
      (self.recommend degenRecommend recommendDiscrete recommendContinuous
        env searchspace batch_size train_x train_y).discCall =
      some ⟨self.disc_recommender, searchspace.discrete,
        searchspace.discrete.comp_rep, batch_size⟩) ∧
    sampledRow (r0 :: rest) env.pick r0 ∈ comp_sel.rows ∧
    (self.recommend degenRecommend recommendDiscrete recommendContinuous
      env searchspace batch_size train_x train_y).contCall =
      some ⟨{ self.cont_recommender with
          acquisition_function := some (AcqFn.PartialAcquisitionFunction
            (AcqFn.base 1) (sampledRow (r0 :: rest) env.pick r0) true) },
        searchspace.continuous, batch_size⟩ := by
  rw [recommend_hybrid_ok self degenRecommend recommendDiscrete
    recommendContinuous env searchspace batch_size train_x train_y idx rc
    comp_sel _ r0 rest htype hcls hd hc hloc hrows hloce hlen]
  refine ⟨?_, ?_, ?_, ?_⟩
  · intro h
    simp [discUsedAfter, h]
  · intro h
    have hnotb : self.disc_recommender.cls ≠ RecommenderClass.bayesian := by
      rw [h]
      intro hx
      cases hx
    simp [discUsedAfter, h]
  · rw [hrows]
    exact sampledRow_mem r0 rest env.pick
  · simp [contUsedAfter]

/-- C3 witness: the adapter shapes on the concrete Bayesian fixture run. -/
theorem C3_partial_adapters_witness :
    run2.discCall = some ⟨{ orchBayes.disc_recommender with
        acquisition_function := some (AcqFn.PartialAcquisitionFunction
          (AcqFn.base 0) env0.contSample false) },
      hybridSpace.discrete, hybridSpace.discrete.comp_rep, 2⟩ ∧
    sampledRow ([some 500, some 600] :: [[some 100, some 200]]) env0.pick
      [some 500, some 600] ∈
      [[some 500, some 600], [some 100, some 200]] ∧
    run2.contCall = some ⟨{ orchBayes.cont_recommender with
        acquisition_function := some (AcqFn.PartialAcquisitionFunction
          (AcqFn.base 1)
          (sampledRow ([some 500, some 600] :: [[some 100, some 200]])
            env0.pick [some 500, some 600]) true) },
      hybridSpace.continuous, 2⟩ := by
  have h := C3_partial_adapters orchBayes okDegen discSel contOut env0
    hybridSpace 2 none none [12, 10]
    ⟨[0, 1], 1, [[some 7], [some 8]]⟩
    ⟨[12, 10], 2, [[some 500, some 600], [some 100, some 200]]⟩
    [some 500, some 600] [[some 100, some 200]]
    rfl (Or.inl rfl) (fun st => rfl) (fun st => rfl) (by decide) (by decide)
    (by decide) (by decide)
  exact ⟨h.1 rfl, h.2.2.1, h.2.2.2⟩

/-- C7, counterexample: after the concrete hybrid run returns, the
continuous sub-recommender's stored acquisition function is exactly the
partial adapter created during that call (it was `none` before the call),
so an adapter object created during the call does remain stored,
contradicting the claim that none survives the call. -/
theorem C7_counterexample :
    run2.cont_final.acquisition_function =
      some (AcqFn.PartialAcquisitionFunction (AcqFn.base 1)
        [some 500, some 600] true) ∧
    orchBayes.cont_recommender.acquisition_function = none := by
  decide

/-- C7 (amended): partial adapters are created fresh on every hybrid
invocation and never reused across calls — whatever acquisition function a
sub-recommender had stored before the call, the adapter used wraps the base
function freshly rebuilt by setup during this call and pins this call's
sampled rows — but the adapters are not discarded: after the call returns
they remain stored in the sub-recommenders' acquisition-function slots. -/
theorem C7_adapter_fresh_but_retained
    (self : NaiveHybridSpaceRecommender) (degenRecommend : DegenFn)
    (recommendDiscrete : DiscSearchFn) (recommendContinuous : ContSearchFn)
    (env : Env) (searchspace : SearchSpace) (batch_size : Nat)
    (train_x train_y : Option DataFrame)
    (idx : List Nat) (rc comp_sel : DataFrame) (r0 : Row) (rest : List Row)
    (htype : searchspace.type = SearchSpaceType.HYBRID)
    (hcls : self.disc_recommender.cls = RecommenderClass.bayesian ∨
            self.disc_recommender.cls = RecommenderClass.nonPredictive)
    (hd : ∀ st, recommendDiscrete st searchspace.discrete
            searchspace.discrete.comp_rep batch_size = Except.ok idx)
    (hc : ∀ st, recommendContinuous st searchspace.continuous batch_size =
            Except.ok rc)
    (hloc : searchspace.discrete.comp_rep.loc idx = some comp_sel)
    (hrows : comp_sel.rows = r0 :: rest)
    (hloce : searchspace.discrete.exp_rep.loc idx =
      some { index := idx, cols := searchspace.discrete.exp_rep.cols,
             rows := idx.map (fun l =>
               (searchspace.discrete.exp_rep.locLookup l).getD []) })
    (hlen : idx.length = rc.rows.length) :
    (self.recommend degenRecommend recommendDiscrete recommendContinuous
      env searchspace batch_size train_x train_y).cont_final.acquisition_function =
      some (AcqFn.PartialAcquisitionFunction (AcqFn.base 1)
        (sampledRow (r0 :: rest) env.pick r0) true) ∧
    (self.disc_recommender.cls = RecommenderClass.bayesian →
      (self.recommend degenRecommend recommendDiscrete recommendContinuous
        env searchspace batch_size train_x train_y).disc_final.acquisition_function =
      some (AcqFn.PartialAcquisitionFunction (AcqFn.base 0)
        env.contSample false)) := by
  rw [recommend_hybrid_ok self degenRecommend recommendDiscrete
    recommendContinuous env searchspace batch_size train_x train_y idx rc
    comp_sel _ r0 rest htype hcls hd hc hloc hrows hloce hlen]
  refine ⟨?_, ?_⟩
  · simp [contUsedAfter]
  · intro h
    simp [discUsedAfter, h]

/-- C7 witness: the amended statement on the concrete fixtures (the prior
stored acquisition function was `none`; after the call both slots hold the
adapters built during the call). -/
theorem C7_adapter_fresh_but_retained_witness :
    run2.cont_final.acquisition_function =
      some (AcqFn.PartialAcquisitionFunction (AcqFn.base 1)
        (sampledRow ([some 500, some 600] :: [[some 100, some 200]])
          env0.pick [some 500, some 600]) true) ∧
    run2.disc_final.acquisition_function =
      some (AcqFn.PartialAcquisitionFunction (AcqFn.base 0)
        env0.contSample false) := by
  have h := C7_adapter_fresh_but_retained orchBayes okDegen discSel contOut
    env0 hybridSpace 2 none none [12, 10]
    ⟨[0, 1], 1, [[some 7], [some 8]]⟩
    ⟨[12, 10], 2, [[some 500, some 600], [some 100, some 200]]⟩
    [some 500, some 600] [[some 100, some 200]]
    rfl (Or.inl rfl) (fun st => rfl) (fun st => rfl) (by decide) (by decide)
    (by decide) (by decide)
  exact ⟨h.1, h.2 rfl⟩

end Baybe
